import Mathlib

/-!
Shallow embedding of `challenge/model.py` (class `DelayModel`) and the
relevant part of `challenge/api.py` (the `/predict` request layer),
with theorems checking the natural-language specification against it.

Python `datetime` values are modelled as records of numeric fields and
compared the way Python compares `datetime` objects: lexicographically
on `(year, month, day, hour, minute, second)`.  Elapsed time between two
datetimes is computed through the proleptic Gregorian ordinal, exactly
as `datetime.__sub__` does.  Pandas frames are modelled as lists of row
records together with a flag recording whether the `Fecha-O` column is
present.  Rationals stand in for Python floats; every quantity that the
code computes (`min_diff`, the class weights) is an exact ratio of
integers, so no rounding is lost.
-/

namespace Challenge

/-- A Python `datetime` value (microseconds are always zero in this code
base: every parsed format is second- or day-granular). -/
structure PyDateTime where
  year : Nat
  month : Nat
  day : Nat
  hour : Nat
  minute : Nat
  second : Nat
deriving DecidableEq, Repr

/-- Python comparison of `datetime` objects (`a <= b`): lexicographic on
the field tuple `(year, month, day, hour, minute, second)`. -/
def PyDateTime.pyLe (a b : PyDateTime) : Bool :=
  if a.year ≠ b.year then decide (a.year < b.year)
  else if a.month ≠ b.month then decide (a.month < b.month)
  else if a.day ≠ b.day then decide (a.day < b.day)
  else if a.hour ≠ b.hour then decide (a.hour < b.hour)
  else if a.minute ≠ b.minute then decide (a.minute < b.minute)
  else decide (a.second ≤ b.second)

/-- Fields of a datetime produced by `strptime` with the formats used in
the code are always in these ranges. -/
def PyDateTime.valid (d : PyDateTime) : Prop :=
  1 ≤ d.month ∧ d.month ≤ 12 ∧ 1 ≤ d.day ∧ d.day ≤ 31 ∧
    d.hour < 24 ∧ d.minute < 60 ∧ d.second < 60

instance (d : PyDateTime) : Decidable d.valid := by
  unfold PyDateTime.valid
  infer_instance

/-- `DelayModel._is_high_season`, translated line by line.  The range
endpoints are parsed from `'%d-%b-%Y'` strings, so they carry time
`00:00:00`; the flight datetime keeps its time of day and the
comparisons are full `datetime` comparisons. -/
def isHighSeason (fecha : PyDateTime) : Nat :=
  if (PyDateTime.pyLe ⟨fecha.year, 12, 15, 0, 0, 0⟩ fecha &&
        PyDateTime.pyLe fecha ⟨fecha.year, 12, 31, 0, 0, 0⟩) ||
      (PyDateTime.pyLe ⟨fecha.year, 1, 1, 0, 0, 0⟩ fecha &&
        PyDateTime.pyLe fecha ⟨fecha.year, 3, 3, 0, 0, 0⟩) ||
      (PyDateTime.pyLe ⟨fecha.year, 7, 15, 0, 0, 0⟩ fecha &&
        PyDateTime.pyLe fecha ⟨fecha.year, 7, 31, 0, 0, 0⟩) ||
      (PyDateTime.pyLe ⟨fecha.year, 9, 11, 0, 0, 0⟩ fecha &&
        PyDateTime.pyLe fecha ⟨fecha.year, 9, 30, 0, 0, 0⟩) then 1 else 0

/-- A Python `time` value, as produced by `datetime.time()`. -/
structure PyTime where
  hour : Nat
  minute : Nat
  second : Nat
deriving DecidableEq, Repr

/-- Python comparison of `time` objects (`a <= b`): lexicographic on
`(hour, minute, second)`. -/
def PyTime.pyLe (a b : PyTime) : Bool :=
  if a.hour ≠ b.hour then decide (a.hour < b.hour)
  else if a.minute ≠ b.minute then decide (a.minute < b.minute)
  else decide (a.second ≤ b.second)

/-- The time of day of a datetime (`datetime.time()`). -/
def PyDateTime.timeOfDay (d : PyDateTime) : PyTime :=
  ⟨d.hour, d.minute, d.second⟩

/-- `DelayModel._get_period_day`, translated line by line.  The interval
endpoints are parsed from `'%H:%M'` strings, so their seconds are 0.
The Python function has no `else` branch, hence returns `None` when no
condition holds; this is the `none` case. -/
def getPeriodDay (dateTime : PyTime) : Option String :=
  let morningMin : PyTime := ⟨5, 0, 0⟩
  let morningMax : PyTime := ⟨11, 59, 0⟩
  let afternoonMin : PyTime := ⟨12, 0, 0⟩
  let afternoonMax : PyTime := ⟨18, 59, 0⟩
  let eveningMin : PyTime := ⟨19, 0, 0⟩
  let eveningMax : PyTime := ⟨23, 59, 0⟩
  let nightMin : PyTime := ⟨0, 0, 0⟩
  let nightMax : PyTime := ⟨4, 59, 0⟩
  if morningMin.pyLe dateTime && dateTime.pyLe morningMax then
    some "mañana"
  else if afternoonMin.pyLe dateTime && dateTime.pyLe afternoonMax then
    some "tarde"
  else if (eveningMin.pyLe dateTime && dateTime.pyLe eveningMax) ||
      (nightMin.pyLe dateTime && dateTime.pyLe nightMax) then
    some "noche"
  else
    none

/-- Gregorian leap-year test, as in Python's `calendar`/`datetime`. -/
def isLeapYear (y : Nat) : Bool :=
  (y % 4 == 0 && y % 100 != 0) || y % 400 == 0

/-- Days in the months strictly before month `m` of year `y`. -/
def daysBeforeMonth (y m : Nat) : Nat :=
  let lens : List Nat :=
    [31, if isLeapYear y then 29 else 28, 31, 30, 31, 30, 31, 31, 30, 31, 30, 31]
  ((lens.take (m - 1)).foldl (· + ·) 0)

/-- Proleptic Gregorian ordinal of a date, matching Python's
`date.toordinal` (0001-01-01 has ordinal 1). -/
def toOrdinal (d : PyDateTime) : Nat :=
  365 * (d.year - 1) + (d.year - 1) / 4 - (d.year - 1) / 100 + (d.year - 1) / 400 +
    daysBeforeMonth d.year d.month + d.day

/-- Seconds since the epoch 0001-01-01 00:00:00, so that the difference
of two datetimes in seconds, `(a - b).total_seconds()`, is
`toSeconds a - toSeconds b` over ℤ. -/
def PyDateTime.toSeconds (d : PyDateTime) : Nat :=
  (toOrdinal d) * 86400 + d.hour * 3600 + d.minute * 60 + d.second

/-- `DelayModel._get_min_diff`: `((fecha_o - fecha_i).total_seconds())/60`,
an exact rational (the float is exact whenever the second difference is a
multiple of 60, and we keep full precision otherwise). -/
def getMinDiff (fechaI fechaO : PyDateTime) : ℚ :=
  (((fechaO.toSeconds : ℤ) - (fechaI.toSeconds : ℤ) : ℤ) : ℚ) / 60

/-- One row of the raw input frame.  `fechaO` carries the cell of the
`Fecha-O` column; it is read only when the frame-level flag
`Frame.hasFechaO` says the column exists (pandas column presence is a
property of the frame, not of a row). -/
structure RawRow where
  opera : String
  tipovuelo : String
  mes : Nat
  fechaI : PyDateTime
  fechaO : PyDateTime
deriving DecidableEq, Repr

/-- A raw pandas frame, as `preprocess` receives it: rows plus whether
the optional `Fecha-O` column is present. -/
structure Frame where
  rows : List RawRow
  hasFechaO : Bool
deriving DecidableEq, Repr

/-- Column name contributed by a row to `pd.get_dummies(..., prefix='OPERA')`. -/
def operaCol (r : RawRow) : String := "OPERA_" ++ r.opera

/-- Column name contributed by a row to `pd.get_dummies(..., prefix='TIPOVUELO')`. -/
def tipovueloCol (r : RawRow) : String := "TIPOVUELO_" ++ r.tipovuelo

/-- Column name contributed by a row to `pd.get_dummies(..., prefix='MES')`. -/
def mesCol (r : RawRow) : String := "MES_" ++ toString r.mes

/-- Whether row `r` turns on dummy column `c` (the row's cell in that
one-hot column is 1). -/
def rowMatches (r : RawRow) (c : String) : Bool :=
  operaCol r == c || tipovueloCol r == c || mesCol r == c

/-- Whether the concatenated `get_dummies` frame of the batch contains
column `c`: some row of the batch has a category whose dummy name is `c`. -/
def dummiesHaveCol (rows : List RawRow) (c : String) : Bool :=
  rows.any (fun r => rowMatches r c)

/-- The hard-coded `top_10_features` list from `preprocess`, in source
order. -/
def top10Features : List String :=
  ["OPERA_Latin American Wings",
   "MES_7",
   "MES_10",
   "OPERA_Grupo LATAM",
   "MES_12",
   "TIPOVUELO_I",
   "MES_4",
   "MES_11",
   "OPERA_Sky Airline",
   "OPERA_Copa Air"]

/-- Cell of the feature matrix after the zero-fill loop, at row `r` and
column `c`: the one-hot cell if the batch's dummies produced column `c`,
else the filled-in constant 0 (`features[feature] = 0`). -/
def featureEntry (rows : List RawRow) (r : RawRow) (c : String) : Nat :=
  if dummiesHaveCol rows c then (if rowMatches r c then 1 else 0) else 0

/-- One output row of `features = features[top_10_features]`: the ten
selected cells, in the fixed column order. -/
def featureRow (rows : List RawRow) (r : RawRow) : List Nat :=
  top10Features.map (fun c => featureEntry rows r c)

/-- The feature matrix `preprocess` returns (one list of 10 cells per
input row, in input row order). -/
def preprocessFeatures (rows : List RawRow) : List (List Nat) :=
  rows.map (fun r => featureRow rows r)

/-- The `delay` cell of a row:
`np.where(min_diff > 15, 1, 0)` applied to `_get_min_diff` of the row. -/
def delayOfRow (r : RawRow) : Nat :=
  if getMinDiff r.fechaI r.fechaO > 15 then 1 else 0

/-- The `min_diff` column, built only when `Fecha-O` is present. -/
def minDiffColumn (f : Frame) : Option (List ℚ) :=
  if f.hasFechaO then some (f.rows.map (fun r => getMinDiff r.fechaI r.fechaO)) else none

/-- The `delay` column, built only when `Fecha-O` is present (the
`if 'Fecha-O' in processed_data.columns` guard in `preprocess`). -/
def delayColumn (f : Frame) : Option (List Nat) :=
  if f.hasFechaO then some (f.rows.map delayOfRow) else none

/-- The column names of `processed_data` right before the
`target_column` check at the end of `preprocess`: the raw columns, the
two always-added feature columns, and — only when `Fecha-O` exists —
`min_diff` and `delay`. -/
def processedColumns (f : Frame) : List String :=
  ["OPERA", "TIPOVUELO", "MES", "Fecha-I"] ++
    (if f.hasFechaO then ["Fecha-O"] else []) ++
    ["period_day", "high_season"] ++
    (if f.hasFechaO then ["min_diff", "delay"] else [])

/-- What `preprocess` returns: either the bare feature matrix, or the
features paired with the requested target column. -/
inductive PreprocessResult where
  | featuresOnly (features : List (List Nat))
  | withTarget (features : List (List Nat)) (target : List Nat)
deriving DecidableEq, Repr

/-- The numeric content of `processed_data[[c]]` for the numeric derived
columns.  Only `delay` is ever requested by the code's callers
(`api.py` and `predict`'s bootstrap both pass `target_column="delay"`);
the other columns are never extracted as targets. -/
def targetColumnValues (f : Frame) (c : String) : List Nat :=
  if c = "delay" then (delayColumn f).getD []
  else if c = "high_season" then f.rows.map (fun r => isHighSeason r.fechaI)
  else []

/-- `DelayModel.preprocess`.  `targetColumn` is the optional
`target_column` argument (`None` when omitted); the final Python guard
is `if target_column and target_column in processed_data.columns`, where
the first conjunct is Python truthiness (`None` and `""` are falsy). -/
def preprocess (f : Frame) (targetColumn : Option String) : PreprocessResult :=
  let features := preprocessFeatures f.rows
  match targetColumn with
  | none => .featuresOnly features
  | some c =>
      if c ≠ "" ∧ c ∈ processedColumns f then
        .withTarget features (targetColumnValues f c)
      else
        .featuresOnly features

/-- The class weights `fit` builds for `LogisticRegression`:
`n_y0 = len(target[target == 0])`, `n_y1 = len(target[target == 1])`,
`class_weight = {1: n_y0/len(target), 0: n_y1/len(target)}`.  Returned
as `(weight for class 0, weight for class 1)`. -/
def classWeights (target : List Nat) : ℚ × ℚ :=
  let nY0 := (target.filter (fun l => l == 0)).length
  let nY1 := (target.filter (fun l => l == 1)).length
  (((nY1 : ℚ) / (target.length : ℚ)), ((nY0 : ℚ) / (target.length : ℚ)))

/-- What the model holds after a (started) fit: the class weights it was
configured with and the data the library was asked to fit. -/
structure FittedParams where
  weight0 : ℚ
  weight1 : ℚ
  trainFeatures : List (List Nat)
  trainTarget : List Nat
deriving DecidableEq, Repr

/-- Outcome of a call to `DelayModel.fit`.  The code defines no error
type of its own; the possible failures are the Python
`ZeroDivisionError` from `n_y0/len(target)` when the target is empty,
and the `ValueError` scikit-learn's `LogisticRegression.fit` raises when
the target holds fewer than two distinct classes (per the library's
documented contract; that call is the only third-party step modelled
here). -/
inductive FitResult where
  | zeroDivisionError
  | singleClassValueError
  | ok (params : FittedParams)
deriving DecidableEq, Repr

/-- `DelayModel.fit`, with the failure cases made explicit in the order
the Python statements execute: the weight divisions first, then the
library fit. -/
def fitRun (features : List (List Nat)) (target : List Nat) : FitResult :=
  if target.length = 0 then .zeroDivisionError
  else if target.dedup.length < 2 then .singleClassValueError
  else .ok ⟨(classWeights target).1, (classWeights target).2, features, target⟩

/-- The state transition of `DelayModel.fit` on `self._model`.  When the
target is empty the division raises before `self._model = ...` runs, so
the held state is unchanged; otherwise the new estimator (with its class
weights and training data) replaces whatever was held, whether or not a
model was already fitted. -/
def stepFit (s : Option FittedParams) (features : List (List Nat))
    (target : List Nat) : Option FittedParams :=
  if target.length = 0 then s
  else some ⟨(classWeights target).1, (classWeights target).2, features, target⟩

/-- The operations of the classifier's public interface. -/
inductive ModelOp where
  | fitOp (features : List (List Nat)) (target : List Nat)
  | predictOp (features : List (List Nat))

/-- The state transition of one classifier operation on `self._model`.
`canonical` is the frame read from `data/data.csv` during the lazy
bootstrap in `predict`: when `self._model is None`, `predict` preprocesses
it with `target_column="delay"` and fits on the result before answering.
(If the canonical frame had no `delay` column, the tuple unpacking
`train_features, target = ...` would raise before any fit, leaving the
state unchanged.) -/
def stepOp (canonical : Frame) (s : Option FittedParams) :
    ModelOp → Option FittedParams
  | .fitOp features target => stepFit s features target
  | .predictOp _ =>
      match s with
      | some p => some p
      | none =>
          match preprocess canonical (some "delay") with
          | .withTarget tf tt => stepFit none tf tt
          | .featuresOnly _ => none

/-- One flight object of a `POST /predict` request body, after pydantic
validation. -/
structure FlightRequestRow where
  opera : String
  tipovuelo : String
  mes : Nat
deriving DecidableEq, Repr

/-- The constant `'2017-01-01 12:00:00'` that `post_predict` writes into
the `Fecha-I` column. -/
def dummyFechaI : PyDateTime := ⟨2017, 1, 1, 12, 0, 0⟩

/-- The frame `post_predict` hands to `preprocess`: one row per flight
with the validated `OPERA`, `TIPOVUELO`, `MES`, plus the injected
placeholder `Fecha-I`; no `Fecha-O` column is created.  The placeholder
is a parameter so that independence from its value can be stated; the
code always passes `dummyFechaI`.  (`RawRow.fechaO` must hold some
value; it is dead data because `hasFechaO = false`.) -/
def apiFrame (flights : List FlightRequestRow) (placeholder : PyDateTime) : Frame :=
  { rows := flights.map (fun fl =>
      ⟨fl.opera, fl.tipovuelo, fl.mes, placeholder, placeholder⟩),
    hasFechaO := false }

/-- The mutable column state of a frame object: the raw columns plus the
derived columns `preprocess` may have written into it. -/
structure ProcFrame where
  base : Frame
  periodDay : Option (List (Option String))
  highSeason : Option (List Nat)
  minDiff : Option (List ℚ)
  delay : Option (List Nat)
deriving DecidableEq, Repr

/-- A frame object fresh from the caller: no derived columns yet. -/
def ProcFrame.ofFrame (f : Frame) : ProcFrame := ⟨f, none, none, none, none⟩

/-- `preprocess` as a program over a store of frame objects, making the
mutation structure explicit.  The argument frame is `store[i]`.  The
first statement `processed_data = data.copy()` allocates a fresh object
at the end of the store; every later column assignment
(`processed_data['period_day'] = ...` and so on) mutates only that fresh
object.  Returns the store after the call and the returned value. -/
def preprocessProgram (store : List ProcFrame) (i : Nat)
    (targetColumn : Option String) : List ProcFrame × PreprocessResult :=
  let data := (store.getD i (ProcFrame.ofFrame ⟨[], false⟩)).base
  let p0 := ProcFrame.ofFrame data
  let p1 := { p0 with
    periodDay := some (data.rows.map (fun (r : RawRow) => getPeriodDay r.fechaI.timeOfDay)) }
  let p2 := { p1 with
    highSeason := some (data.rows.map (fun (r : RawRow) => isHighSeason r.fechaI)) }
  let p3 :=
    if data.hasFechaO then
      { p2 with minDiff := minDiffColumn data, delay := delayColumn data }
    else p2
  (store ++ [p3], preprocess data targetColumn)

/-- Seconds since midnight of a time of day; on valid times this is the
order-isomorphic numeric view of Python `time` comparison. -/
def PyTime.secOfDay (t : PyTime) : Nat :=
  t.hour * 3600 + t.minute * 60 + t.second

/-- A concrete valid row used to instantiate theorems with hypotheses. -/
def witnessRow : RawRow :=
  ⟨"Sky Airline", "N", 12, dummyFechaI, dummyFechaI⟩

/-- A concrete row whose flight left 16 minutes late
(`Fecha-I = 2017-01-01 12:00:00`, `Fecha-O = 2017-01-01 12:16:00`). -/
def witnessRow16 : RawRow :=
  ⟨"Grupo LATAM", "I", 1, ⟨2017, 1, 1, 12, 0, 0⟩, ⟨2017, 1, 1, 12, 16, 0⟩⟩

/-- A concrete row whose flight left exactly 15 minutes late. -/
def witnessRow15 : RawRow :=
  ⟨"Grupo LATAM", "I", 1, ⟨2017, 1, 1, 12, 0, 0⟩, ⟨2017, 1, 1, 12, 15, 0⟩⟩

/-! ## Shared lemmas -/

theorem pyDateTimeLe_iff (a b : PyDateTime) :
    a.pyLe b = true ↔
      (a.year < b.year ∨ (a.year = b.year ∧
        (a.month < b.month ∨ (a.month = b.month ∧
          (a.day < b.day ∨ (a.day = b.day ∧
            (a.hour < b.hour ∨ (a.hour = b.hour ∧
              (a.minute < b.minute ∨ (a.minute = b.minute ∧
                a.second ≤ b.second)))))))))) := by
  unfold PyDateTime.pyLe
  split_ifs <;> simp_all

theorem pyTimeLe_iff (a b : PyTime) :
    a.pyLe b = true ↔
      (a.hour < b.hour ∨ (a.hour = b.hour ∧
        (a.minute < b.minute ∨ (a.minute = b.minute ∧
          a.second ≤ b.second)))) := by
  unfold PyTime.pyLe
  split_ifs <;> simp_all

theorem pyLe_monthDayStart_iff (d : PyDateTime) (mo dd : Nat) :
    PyDateTime.pyLe ⟨d.year, mo, dd, 0, 0, 0⟩ d = true ↔
      (mo < d.month ∨ (mo = d.month ∧ dd ≤ d.day)) := by
  rw [pyDateTimeLe_iff]
  dsimp only
  omega

theorem pyLe_monthDayEnd_iff (d : PyDateTime) (mo dd : Nat) :
    PyDateTime.pyLe d ⟨d.year, mo, dd, 0, 0, 0⟩ = true ↔
      (d.month < mo ∨ (d.month = mo ∧
        (d.day < dd ∨ (d.day = dd ∧ d.hour = 0 ∧ d.minute = 0 ∧ d.second = 0)))) := by
  rw [pyDateTimeLe_iff]
  dsimp only
  omega

theorem ite_one_zero_eq_one_iff (b : Bool) :
    (if b then (1 : Nat) else 0) = 1 ↔ b = true := by
  cases b <;> simp

theorem string_append_left_cancel (p a b : String) (h : p ++ a = p ++ b) :
    a = b := by
  have hd := congrArg String.data h
  rw [String.data_append, String.data_append] at hd
  exact String.ext (List.append_cancel_left hd)

theorem featureEntry_of_mem (rows : List RawRow) (r : RawRow) (c : String)
    (hr : r ∈ rows) :
    featureEntry rows r c = if rowMatches r c then 1 else 0 := by
  unfold featureEntry
  by_cases h : rowMatches r c
  · have hcol : dummiesHaveCol rows c = true := by
      unfold dummiesHaveCol
      simp only [List.any_eq_true]
      exact ⟨r, hr, h⟩
    simp [hcol, h]
  · simp [h]

theorem rowMatches_opera_iff (r : RawRow)
    (htv : r.tipovuelo = "I" ∨ r.tipovuelo = "N") (name : String) :
    (rowMatches r ("OPERA_" ++ name) = true) ↔ r.opera = name := by
  unfold rowMatches operaCol tipovueloCol mesCol
  simp only [Bool.or_eq_true, beq_iff_eq]
  constructor
  · rintro ((h | h) | h)
    · exact string_append_left_cancel _ _ _ h
    · rcases htv with ht | ht <;> rw [ht] at h <;>
        · have hd := congrArg String.data h
          simp [String.data_append] at hd
    · have hd := congrArg String.data h
      simp [String.data_append] at hd
  · intro h
    left; left
    rw [h]

theorem rowMatches_mes_iff (r : RawRow) (hm1 : 1 ≤ r.mes) (hm2 : r.mes ≤ 12)
    (m : Nat) (hq1 : 1 ≤ m) (hq2 : m ≤ 12) :
    (rowMatches r ("MES_" ++ toString m) = true) ↔ r.mes = m := by
  obtain ⟨ropera, rtipo, rmes, rfi, rfo⟩ := r
  unfold rowMatches operaCol tipovueloCol mesCol
  simp only [Bool.or_eq_true, beq_iff_eq]
  constructor
  · rintro ((h | h) | h)
    · have hd := congrArg String.data h
      simp [String.data_append] at hd
    · have hd := congrArg String.data h
      simp [String.data_append] at hd
    · have hs := string_append_left_cancel _ _ _ h
      simp only at hs ⊢
      interval_cases rmes <;> interval_cases m <;>
        first
          | rfl
          | exact absurd hs (by decide)
  · intro h
    right
    simp only at h
    rw [h]

theorem rowMatches_tipovuelo_iff (r : RawRow) :
    (rowMatches r "TIPOVUELO_I" = true) ↔ r.tipovuelo = "I" := by
  unfold rowMatches operaCol tipovueloCol mesCol
  simp only [Bool.or_eq_true, beq_iff_eq]
  constructor
  · rintro ((h | h) | h)
    · have hd := congrArg String.data h
      simp [String.data_append] at hd
    · have heq : "TIPOVUELO_I" = "TIPOVUELO_" ++ "I" := rfl
      rw [heq] at h
      exact string_append_left_cancel _ _ _ h
    · have hd := congrArg String.data h
      simp [String.data_append] at hd
  · intro h
    left; right
    rw [h]
    rfl

theorem featureRow_of_mem (rows : List RawRow) (r : RawRow) (hr : r ∈ rows)
    (hm1 : 1 ≤ r.mes) (hm2 : r.mes ≤ 12)
    (htv : r.tipovuelo = "I" ∨ r.tipovuelo = "N") :
    featureRow rows r =
      [if r.opera = "Latin American Wings" then 1 else 0,
       if r.mes = 7 then 1 else 0,
       if r.mes = 10 then 1 else 0,
       if r.opera = "Grupo LATAM" then 1 else 0,
       if r.mes = 12 then 1 else 0,
       if r.tipovuelo = "I" then 1 else 0,
       if r.mes = 4 then 1 else 0,
       if r.mes = 11 then 1 else 0,
       if r.opera = "Sky Airline" then 1 else 0,
       if r.opera = "Copa Air" then 1 else 0] := by
  have e1 : (rowMatches r "OPERA_Latin American Wings" = true) ↔
      r.opera = "Latin American Wings" :=
    rowMatches_opera_iff r htv "Latin American Wings"
  have e2 : (rowMatches r "MES_7" = true) ↔ r.mes = 7 :=
    rowMatches_mes_iff r hm1 hm2 7 (by omega) (by omega)
  have e3 : (rowMatches r "MES_10" = true) ↔ r.mes = 10 :=
    rowMatches_mes_iff r hm1 hm2 10 (by omega) (by omega)
  have e4 : (rowMatches r "OPERA_Grupo LATAM" = true) ↔
      r.opera = "Grupo LATAM" :=
    rowMatches_opera_iff r htv "Grupo LATAM"
  have e5 : (rowMatches r "MES_12" = true) ↔ r.mes = 12 :=
    rowMatches_mes_iff r hm1 hm2 12 (by omega) (by omega)
  have e6 : (rowMatches r "TIPOVUELO_I" = true) ↔ r.tipovuelo = "I" :=
    rowMatches_tipovuelo_iff r
  have e7 : (rowMatches r "MES_4" = true) ↔ r.mes = 4 :=
    rowMatches_mes_iff r hm1 hm2 4 (by omega) (by omega)
  have e8 : (rowMatches r "MES_11" = true) ↔ r.mes = 11 :=
    rowMatches_mes_iff r hm1 hm2 11 (by omega) (by omega)
  have e9 : (rowMatches r "OPERA_Sky Airline" = true) ↔
      r.opera = "Sky Airline" :=
    rowMatches_opera_iff r htv "Sky Airline"
  have e10 : (rowMatches r "OPERA_Copa Air" = true) ↔ r.opera = "Copa Air" :=
    rowMatches_opera_iff r htv "Copa Air"
  unfold featureRow top10Features
  simp only [List.map_cons, List.map_nil,
    featureEntry_of_mem _ _ _ hr, e1, e2, e3, e4, e5, e6, e7, e8, e9, e10]

/-! ## Claim theorems -/

/-- Claim C1: on every batch of valid rows (`MES` in 1..12, `TIPOVUELO`
in {I, N}), `preprocess` yields one feature row per input row; each
feature row has exactly 10 cells, one per slot of `top10Features` in
that fixed order, each cell 0 or 1; a slot whose category occurs nowhere
in the batch is 0 in every row; and each row's cells are exactly the
one-hot indicators of its own `OPERA`, `MES` and `TIPOVUELO` against the
ten named slots (everything else is discarded). -/
theorem preprocessFeaturesShape (rows : List RawRow)
    (hvalid : ∀ r ∈ rows,
      (1 ≤ r.mes ∧ r.mes ≤ 12) ∧ (r.tipovuelo = "I" ∨ r.tipovuelo = "N")) :
    (preprocessFeatures rows).length = rows.length ∧
    (∀ fr ∈ preprocessFeatures rows, fr.length = 10 ∧ ∀ v ∈ fr, v = 0 ∨ v = 1) ∧
    (∀ c ∈ top10Features, dummiesHaveCol rows c = false →
      ∀ r ∈ rows, featureEntry rows r c = 0) ∧
    (∀ r ∈ rows, featureRow rows r =
      [if r.opera = "Latin American Wings" then 1 else 0,
       if r.mes = 7 then 1 else 0,
       if r.mes = 10 then 1 else 0,
       if r.opera = "Grupo LATAM" then 1 else 0,
       if r.mes = 12 then 1 else 0,
       if r.tipovuelo = "I" then 1 else 0,
       if r.mes = 4 then 1 else 0,
       if r.mes = 11 then 1 else 0,
       if r.opera = "Sky Airline" then 1 else 0,
       if r.opera = "Copa Air" then 1 else 0]) := by
  refine ⟨?_, ?_, ?_, ?_⟩
  · simp [preprocessFeatures]
  · intro fr hfr
    rw [preprocessFeatures, List.mem_map] at hfr
    obtain ⟨r, hrmem, rfl⟩ := hfr
    constructor
    · simp [featureRow, top10Features]
    · intro v hv
      rw [featureRow, List.mem_map] at hv
      obtain ⟨c, hcmem, rfl⟩ := hv
      unfold featureEntry
      split
      · split
        · right; rfl
        · left; rfl
      · left; rfl
  · intro c hcmem hcol r hrmem
    simp [featureEntry, hcol]
  · intro r hrmem
    exact featureRow_of_mem rows r hrmem (hvalid r hrmem).1.1
      (hvalid r hrmem).1.2 (hvalid r hrmem).2

/-- Witness for C1 at a concrete one-row batch. -/
theorem preprocessFeaturesShape_witness :
    featureRow [witnessRow] witnessRow = [0, 0, 0, 0, 1, 0, 0, 0, 1, 0] := by
  have h := preprocessFeaturesShape [witnessRow] (by decide)
  rw [h.2.2.2 witnessRow (by decide)]
  decide

/-- Claim C2: the label machinery.  `min_diff` and `delay` are derived
exactly when `Fecha-O` is present; `min_diff` is the elapsed time from
`Fecha-I` to `Fecha-O` in minutes, negative whenever the actual time
precedes the scheduled one; `delay` is 1 iff `min_diff > 15`, so
`min_diff = 16` gives 1 and `min_diff = 15` gives 0. -/
theorem labelDerivation (f : Frame) (r : RawRow) :
    (f.hasFechaO = false → minDiffColumn f = none ∧ delayColumn f = none) ∧
    (f.hasFechaO = true →
      minDiffColumn f =
        some (f.rows.map (fun row => getMinDiff row.fechaI row.fechaO)) ∧
      delayColumn f = some (f.rows.map delayOfRow)) ∧
    getMinDiff r.fechaI r.fechaO =
      (((r.fechaO.toSeconds : ℤ) - (r.fechaI.toSeconds : ℤ) : ℤ) : ℚ) / 60 ∧
    (r.fechaO.toSeconds < r.fechaI.toSeconds →
      getMinDiff r.fechaI r.fechaO < 0) ∧
    (delayOfRow r = 1 ↔ getMinDiff r.fechaI r.fechaO > 15) ∧
    (getMinDiff r.fechaI r.fechaO = 16 → delayOfRow r = 1) ∧
    (getMinDiff r.fechaI r.fechaO = 15 → delayOfRow r = 0) := by
  refine ⟨?_, ?_, rfl, ?_, ?_, ?_, ?_⟩
  · intro h
    simp [minDiffColumn, delayColumn, h]
  · intro h
    simp [minDiffColumn, delayColumn, h]
  · intro h
    unfold getMinDiff
    apply div_neg_of_neg_of_pos
    · have hlt : ((r.fechaO.toSeconds : ℤ) - (r.fechaI.toSeconds : ℤ)) < 0 := by
        omega
      exact_mod_cast hlt
    · norm_num
  · unfold delayOfRow
    split
    · simp_all
    · simp_all
  · intro h
    unfold delayOfRow
    rw [h]
    norm_num
  · intro h
    unfold delayOfRow
    rw [h]
    norm_num

/-- Witness for C2 at the spec's own example rows. -/
theorem labelDerivation_witness :
    delayOfRow witnessRow16 = 1 ∧ delayOfRow witnessRow15 = 0 := by
  constructor
  · apply (labelDerivation ⟨[], true⟩ witnessRow16).2.2.2.2.2.1
    have h1 : witnessRow16.fechaI.toSeconds = 63618955200 := rfl
    have h2 : witnessRow16.fechaO.toSeconds = 63618956160 := rfl
    unfold getMinDiff
    rw [h1, h2]
    norm_num
  · apply (labelDerivation ⟨[], true⟩ witnessRow15).2.2.2.2.2.2
    have h1 : witnessRow15.fechaI.toSeconds = 63618955200 := rfl
    have h2 : witnessRow15.fechaO.toSeconds = 63618956100 := rfl
    unfold getMinDiff
    rw [h1, h2]
    norm_num

/-- Claim C5: on a binary label vector, `fit` sets
`weight[1] = n0/total` and `weight[0] = n1/total`, where `n0` and `n1`
are the class counts and `total = n0 + n1` is the number of rows. -/
theorem classWeightsSpec (target : List Nat)
    (hbin : ∀ l ∈ target, l = 0 ∨ l = 1) :
    ((target.filter (fun l => l == 0)).length : ℚ) +
      ((target.filter (fun l => l == 1)).length : ℚ) = (target.length : ℚ) ∧
    classWeights target =
      (((target.filter (fun l => l == 1)).length : ℚ) / (target.length : ℚ),
       ((target.filter (fun l => l == 0)).length : ℚ) / (target.length : ℚ)) := by
  constructor
  · have h : (target.filter (fun l => l == 0)).length +
        (target.filter (fun l => l == 1)).length = target.length := by
      induction target with
      | nil => rfl
      | cons a as ih =>
          have has : ∀ l ∈ as, l = 0 ∨ l = 1 := fun l hl =>
            hbin l (List.mem_cons_of_mem a hl)
          have ihh := ih has
          have ha := hbin a (List.mem_cons_self a as)
          rcases ha with h0 | h0 <;> subst h0 <;>
            simp [List.filter_cons] <;> omega
    exact_mod_cast h
  · rfl

/-- Witness for C5 at the concrete labels `[0, 1, 0]`. -/
theorem classWeightsSpec_witness :
    (2 : ℚ) + 1 = 3 ∧
    classWeights [0, 1, 0] = ((1 : ℚ) / 3, (2 : ℚ) / 3) := by
  have h := classWeightsSpec [0, 1, 0] (by decide)
  constructor
  · norm_num
  · rw [h.2]
    norm_num [List.filter_cons]

/-- Claim C6, counterexample: on the single-class target `[0, 0]` the
code's own weight computation succeeds (no error of the repository's is
raised — no `DegenerateTrainingDataError` exists in the code); the
failure is the library's single-class `ValueError`, and an empty target
dies with a Python `ZeroDivisionError` in the weight division. -/
theorem fitDegenerateCounterexample :
    fitRun [[1], [1]] [0, 0] = FitResult.singleClassValueError ∧
    classWeights [0, 0] = ((0 : ℚ), (1 : ℚ)) ∧
    fitRun [] [] = FitResult.zeroDivisionError := by
  refine ⟨by decide, ?_, rfl⟩
  unfold classWeights
  norm_num [List.filter_cons]

/-- Claim C6 as amended: `fit` on an empty target fails with the Python
`ZeroDivisionError` from the class-weight division; `fit` on a nonempty
single-class target computes weights without error and then fails inside
`LogisticRegression.fit` with the library's `ValueError`; no
`DegenerateTrainingDataError` type exists in the code; a fitted model is
produced only when the target holds at least two distinct classes, so no
constant-output model is silently produced. -/
theorem fitDegenerateAmended (features : List (List Nat)) (target : List Nat) :
    (target = [] → fitRun features target = FitResult.zeroDivisionError) ∧
    (target ≠ [] → target.dedup.length < 2 →
      fitRun features target = FitResult.singleClassValueError) ∧
    (∀ p : FittedParams, fitRun features target = FitResult.ok p →
      2 ≤ target.dedup.length) := by
  refine ⟨?_, ?_, ?_⟩
  · intro h
    subst h
    rfl
  · intro h1 h2
    unfold fitRun
    rw [if_neg (by simpa using h1), if_pos h2]
  · intro p hp
    unfold fitRun at hp
    by_cases h0 : target.length = 0
    · simp [h0] at hp
    · by_cases h1 : target.dedup.length < 2
      · simp [h0, h1] at hp
      · omega

/-- Witness for the amended C6 at the all-ones target `[1, 1]`. -/
theorem fitDegenerateAmended_witness :
    fitRun [[1], [1]] [1, 1] = FitResult.singleClassValueError :=
  (fitDegenerateAmended [[1], [1]] [1, 1]).2.1 (by decide) (by decide)

/-- Claim C7: the classifier's state machine is one-way
Unfitted → Fitted.  `fit` (with a nonempty target) installs the new
parameters whatever the previous state was; no operation takes a fitted
state back to unfitted; and `predict` on an unfitted model bootstraps by
preprocessing the canonical dataset with target extraction and fitting
on the result before answering. -/
theorem modelStateMachine (canonical : Frame) (hc : canonical.hasFechaO = true)
    (s : Option FittedParams) (features : List (List Nat)) (target : List Nat)
    (ht : target ≠ []) (pfeatures : List (List Nat)) (op : ModelOp) :
    stepOp canonical s (.fitOp features target) =
      some ⟨(classWeights target).1, (classWeights target).2, features, target⟩ ∧
    (s.isSome = true → (stepOp canonical s op).isSome = true) ∧
    stepOp canonical none (.predictOp pfeatures) =
      stepFit none (preprocessFeatures canonical.rows)
        (canonical.rows.map delayOfRow) := by
  refine ⟨?_, ?_, ?_⟩
  · show stepFit s features target = _
    unfold stepFit
    rw [if_neg (by simpa using ht)]
  · intro hs
    cases op with
    | fitOp f t =>
        show (stepFit s f t).isSome = true
        unfold stepFit
        split
        · exact hs
        · rfl
    | predictOp f =>
        obtain ⟨p, rfl⟩ := Option.isSome_iff_exists.mp hs
        rfl
  · show (match preprocess canonical (some "delay") with
      | .withTarget tf tt => stepFit none tf tt
      | .featuresOnly _ => none) = _
    have hp : preprocess canonical (some "delay") =
        .withTarget (preprocessFeatures canonical.rows)
          (canonical.rows.map delayOfRow) := by
      simp only [preprocess]
      rw [if_pos]
      · unfold targetColumnValues delayColumn
        rw [if_pos rfl, hc]
        simp
      · refine ⟨by decide, ?_⟩
        simp [processedColumns, hc]
    rw [hp]

/-- Witness for C7 at a concrete one-row canonical dataset. -/
theorem modelStateMachine_witness :
    stepOp ⟨[witnessRow16], true⟩ none (.predictOp []) =
      stepFit none (preprocessFeatures [witnessRow16])
        ([witnessRow16].map delayOfRow) ∧
    (stepOp ⟨[witnessRow16], true⟩ (some ⟨0, 1, [], []⟩) (.predictOp [])).isSome
      = true := by
  have h := modelStateMachine ⟨[witnessRow16], true⟩ rfl (some ⟨0, 1, [], []⟩)
    [] [0] (by decide) [] (.predictOp [])
  exact ⟨h.2.2, h.2.1 rfl⟩

/-- Claim C8: a prediction request carries no `Fecha-O`, so `preprocess`
computes no `delay` (and no `min_diff`) and returns only features; and
the injected placeholder timestamp never influences the label outcome —
two runs differing only in the placeholder both produce the outcome
`none`. -/
theorem placeholderNoLabelInfluence (flights : List FlightRequestRow)
    (p1 p2 : PyDateTime) :
    delayColumn (apiFrame flights p1) = none ∧
    minDiffColumn (apiFrame flights p1) = none ∧
    preprocess (apiFrame flights p1) none =
      .featuresOnly (preprocessFeatures (apiFrame flights p1).rows) ∧
    delayColumn (apiFrame flights p1) = delayColumn (apiFrame flights p2) := by
  refine ⟨?_, ?_, rfl, ?_⟩ <;> simp [delayColumn, minDiffColumn, apiFrame]

/-- Claim C9: `preprocess` is pure.  Run as a program over a store of
frame objects, it leaves every pre-existing frame — in particular its
input frame — unchanged (it works on the fresh copy it allocates), and
the value it returns is a function of the input frame's contents alone. -/
theorem preprocessPure (store : List ProcFrame) (i : Nat) (tc : Option String)
    (h : i < store.length) :
    (preprocessProgram store i tc).1.take store.length = store ∧
    (preprocessProgram store i tc).2 = preprocess (store.get ⟨i, h⟩).base tc := by
  constructor
  · unfold preprocessProgram
    simp only
    exact List.take_left store _
  · unfold preprocessProgram
    simp only
    rw [List.getD_eq_getElem store _ h]
    rfl

/-- Witness for C9 at a concrete one-frame store. -/
theorem preprocessPure_witness :
    (preprocessProgram [ProcFrame.ofFrame ⟨[witnessRow], false⟩] 0 none).1.take 1 =
      [ProcFrame.ofFrame ⟨[witnessRow], false⟩] ∧
    (preprocessProgram [ProcFrame.ofFrame ⟨[witnessRow], false⟩] 0 none).2 =
      preprocess ⟨[witnessRow], false⟩ none := by
  have h := preprocessPure [ProcFrame.ofFrame ⟨[witnessRow], false⟩] 0 none
    (by decide)
  exact ⟨h.1, h.2⟩

/-- Claim C10: when `target_column` names a column that the processed
frame does not have — in particular `target_column = "delay"` on data
lacking `Fecha-O` — `preprocess` silently returns only the feature
matrix: no `(features, target)` pair and no error. -/
theorem preprocessMissingTargetColumn (f : Frame) (c : String)
    (hc : c ∉ processedColumns f) :
    preprocess f (some c) = .featuresOnly (preprocessFeatures f.rows) ∧
    (f.hasFechaO = false → "delay" ∉ processedColumns f) := by
  constructor
  · simp only [preprocess]
    rw [if_neg]
    intro hcontra
    exact hc hcontra.2
  · intro hf
    simp [processedColumns, hf]

/-- Witness for C10: requesting `"delay"` from a frame without `Fecha-O`
yields features only. -/
theorem preprocessMissingTargetColumn_witness :
    preprocess ⟨[witnessRow], false⟩ (some "delay") =
      .featuresOnly (preprocessFeatures [witnessRow]) :=
  (preprocessMissingTargetColumn ⟨[witnessRow], false⟩ "delay" (by decide)).1

/-- Claim C3, counterexample: the claim maps `2023-03-03 23:59:59` to 1,
but the code compares against midnight of the range-end day
(`3-Mar-2023` parses to `2023-03-03 00:00:00`), so any later time of
that day is outside the range and the flag is 0. -/
theorem highSeasonClaimCounterexample :
    isHighSeason ⟨2023, 3, 3, 23, 59, 59⟩ = 0 := by decide

/-- Claim C3 as amended: for every valid datetime, the high-season flag
is 1 exactly when the datetime lies in one of the year-relative closed
ranges [Dec 15 00:00:00, Dec 31 00:00:00], [Jan 1 00:00:00,
Mar 3 00:00:00], [Jul 15 00:00:00, Jul 31 00:00:00],
[Sep 11 00:00:00, Sep 30 00:00:00] — the last day of each range counts
only at exactly midnight, so `2023-03-03 23:59:59` maps to 0 while
`2023-12-15 00:00:00` maps to 1, `2023-12-14 23:59:59` to 0 and
`2023-03-04 00:00:00` to 0. -/
theorem isHighSeasonCharacterization (d : PyDateTime) (hv : d.valid) :
    isHighSeason d = 1 ↔
      ((((d.month = 12 ∧ 15 ≤ d.day ∧
          (d.day ≤ 30 ∨ (d.day = 31 ∧ d.hour = 0 ∧ d.minute = 0 ∧ d.second = 0))) ∨
        (d.month = 1 ∨ d.month = 2 ∨
          (d.month = 3 ∧
            (d.day ≤ 2 ∨ (d.day = 3 ∧ d.hour = 0 ∧ d.minute = 0 ∧ d.second = 0))))) ∨
        (d.month = 7 ∧ 15 ≤ d.day ∧
          (d.day ≤ 30 ∨ (d.day = 31 ∧ d.hour = 0 ∧ d.minute = 0 ∧ d.second = 0)))) ∨
       (d.month = 9 ∧ 11 ≤ d.day ∧
         (d.day ≤ 29 ∨ (d.day = 30 ∧ d.hour = 0 ∧ d.minute = 0 ∧ d.second = 0)))) := by
  obtain ⟨h1, h2, h3, h4, h5, h6, h7⟩ := hv
  rw [isHighSeason, ite_one_zero_eq_one_iff]
  simp only [Bool.or_eq_true, Bool.and_eq_true, pyLe_monthDayStart_iff,
    pyLe_monthDayEnd_iff]
  exact or_congr (or_congr (or_congr (by omega) (by omega)) (by omega)) (by omega)

/-- Witness for the amended C3 at the claim's boundary datetimes. -/
theorem isHighSeasonCharacterization_witness :
    isHighSeason ⟨2023, 12, 15, 0, 0, 0⟩ = 1 ∧
    isHighSeason ⟨2023, 12, 14, 23, 59, 59⟩ = 0 ∧
    isHighSeason ⟨2023, 3, 4, 0, 0, 0⟩ = 0 := by
  have h := isHighSeasonCharacterization ⟨2023, 12, 15, 0, 0, 0⟩ (by decide)
  exact ⟨h.mpr (by norm_num), by decide, by decide⟩

/-- Claim C4, counterexample: the claim says every valid `HH:MM:SS` time
gets exactly one period label, but the interval endpoints carry second
00 (`'11:59'` parses to 11:59:00), so `11:59:30` (and likewise
`23:59:59`) satisfies no branch and the code returns `None`. -/
theorem periodDayClaimCounterexample :
    getPeriodDay ⟨11, 59, 30⟩ = none ∧ getPeriodDay ⟨23, 59, 59⟩ = none := by
  decide

/-- Claim C4 as amended: for every valid time of day, the buckets are
the closed ranges morning = [05:00:00, 11:59:00],
afternoon = [12:00:00, 18:59:00], night = [19:00:00, 23:59:00] ∪
[00:00:00, 04:59:00]; the boundary examples 04:59(:00) → night,
05:00 → morning, 11:59(:00) → morning, 12:00 → afternoon,
18:59(:00) → afternoon, 19:00 → night, 23:59(:00) → night all hold, but
times strictly inside the minutes 04:59, 11:59, 18:59 and 23:59 (seconds
01–59) fall in no bucket and get no label. -/
theorem getPeriodDayCharacterization (t : PyTime)
    (hv : t.hour < 24 ∧ t.minute < 60 ∧ t.second < 60) :
    (getPeriodDay t = some "mañana" ↔
      5 * 3600 ≤ t.secOfDay ∧ t.secOfDay ≤ 11 * 3600 + 59 * 60) ∧
    (getPeriodDay t = some "tarde" ↔
      12 * 3600 ≤ t.secOfDay ∧ t.secOfDay ≤ 18 * 3600 + 59 * 60) ∧
    (getPeriodDay t = some "noche" ↔
      ((19 * 3600 ≤ t.secOfDay ∧ t.secOfDay ≤ 23 * 3600 + 59 * 60) ∨
        t.secOfDay ≤ 4 * 3600 + 59 * 60)) ∧
    (getPeriodDay t = none ↔
      ((4 * 3600 + 59 * 60 < t.secOfDay ∧ t.secOfDay < 5 * 3600) ∨
       (11 * 3600 + 59 * 60 < t.secOfDay ∧ t.secOfDay < 12 * 3600) ∨
       (18 * 3600 + 59 * 60 < t.secOfDay ∧ t.secOfDay < 19 * 3600) ∨
       23 * 3600 + 59 * 60 < t.secOfDay)) := by
  obtain ⟨hh, hm, hs⟩ := hv
  unfold getPeriodDay PyTime.secOfDay
  dsimp only
  split_ifs with h1 h2 h3
  · simp only [Bool.and_eq_true, pyTimeLe_iff] at h1
    exact ⟨iff_of_true rfl (by omega), iff_of_false (by decide) (by omega),
      iff_of_false (by decide) (by omega), iff_of_false (by decide) (by omega)⟩
  · simp only [Bool.and_eq_true, pyTimeLe_iff] at h1 h2
    exact ⟨iff_of_false (by decide) (by omega), iff_of_true rfl (by omega),
      iff_of_false (by decide) (by omega), iff_of_false (by decide) (by omega)⟩
  · simp only [Bool.and_eq_true, Bool.or_eq_true, pyTimeLe_iff] at h1 h2 h3
    exact ⟨iff_of_false (by decide) (by omega), iff_of_false (by decide) (by omega),
      iff_of_true rfl (by omega), iff_of_false (by decide) (by omega)⟩
  · simp only [Bool.and_eq_true, Bool.or_eq_true, pyTimeLe_iff] at h1 h2 h3
    exact ⟨iff_of_false (by decide) (by omega), iff_of_false (by decide) (by omega),
      iff_of_false (by decide) (by omega), iff_of_true rfl (by omega)⟩

/-- Witness for the amended C4 at the claim's boundary times. -/
theorem getPeriodDayCharacterization_witness :
    getPeriodDay ⟨5, 0, 0⟩ = some "mañana" ∧
    getPeriodDay ⟨4, 59, 0⟩ = some "noche" ∧
    getPeriodDay ⟨23, 59, 0⟩ = some "noche" := by
  have h1 := getPeriodDayCharacterization ⟨5, 0, 0⟩ (by decide)
  have h2 := getPeriodDayCharacterization ⟨4, 59, 0⟩ (by decide)
  exact ⟨h1.1.mpr (by decide), h2.2.2.1.mpr (by decide), by decide⟩

end Challenge
